import Mathlib

/-!
Verification of the E2SAR reassembler frame builder
(`src/e2sar_reassembler_framebuilder.cpp` / `.hpp`, plus the CLI driver in
`src/e2sar_receiver.cpp`).

The C++ source is shallowly embedded: machine integers become `Nat` with an
explicit `% 2^w` wherever the C code converts or truncates; `std::vector`
of words/bytes becomes `List Nat`; the `std::unordered_map` shard buffer
becomes an association list; `steady_clock` instants become `Nat` ticks
supplied by the caller.  The host is little-endian (x86), so the raw
`uint32_t` reinterpretation of payload bytes in the slice-magic check reads
four bytes little-end first.
-/

namespace E2SAR

/-- `TimeSlice` (the struct at the top of the .cpp): one reassembled slice.
The five fields mirror the C struct; `payload` is the byte vector. -/
structure TimeSlice where
  timestamp : Nat
  frameNumber : Nat
  dataId : Nat
  streamStatus : Nat
  payload : List Nat
  deriving DecidableEq, Repr

/-- The five-argument `TimeSlice` constructor: it copies the payload bytes and
initializes `streamStatus` to 0 (the only constructor the pipeline uses).
The parameter types `uint64_t`/`uint32_t`/`uint16_t` truncate the incoming
values. -/
def mkTimeSlice (ts frame id : Nat) (data : List Nat) : TimeSlice :=
  { timestamp := ts % 2 ^ 64, frameNumber := frame % 2 ^ 32, dataId := id % 2 ^ 16,
    streamStatus := 0, payload := data }

/-- `AggregatedFrame`: all slices sharing one timestamp, plus the arrival
instant that drives the frame timeout. -/
structure AggregatedFrame where
  timestamp : Nat
  frameNumber : Nat
  slices : List TimeSlice
  arrivalTime : Nat
  deriving DecidableEq, Repr

/-- The default `AggregatedFrame()` constructor: zero timestamp and frame
number, empty slice list, `arrivalTime = now`. -/
def defaultFrame (now : Nat) : AggregatedFrame :=
  { timestamp := 0, frameNumber := 0, slices := [], arrivalTime := now }

/-! ### Shard buffer (`BuilderThread::addTimeSlice`)

The `std::unordered_map<uint64_t, AggregatedFrame>` is modelled as an
association list keyed by timestamp; `operator[]` is modelled by a lookup
that default-constructs on a miss, followed by a store. -/

/-- Lookup in the shard buffer (`frameBuffer.find`). -/
def lookupFrame : List (Nat × AggregatedFrame) → Nat → Option AggregatedFrame
  | [], _ => none
  | (k, v) :: rest, ts => if k = ts then some v else lookupFrame rest ts

/-- Store into the shard buffer (the write-back half of `operator[]`). -/
def storeFrame : List (Nat × AggregatedFrame) → Nat → AggregatedFrame →
    List (Nat × AggregatedFrame)
  | [], ts, f => [(ts, f)]
  | (k, v) :: rest, ts, f =>
    if k = ts then (ts, f) :: rest else (k, v) :: storeFrame rest ts f

/-- `BuilderThread::addTimeSlice`: `frameBuffer[slice.timestamp]`
default-constructs a frame on a miss; the code then treats the entry as new
whenever `frame.timestamp == 0`, (re)setting `timestamp`, `frameNumber` and
`arrivalTime`, and finally appends the slice.  `now` is the current
`steady_clock` tick. -/
def addTimeSlice (now : Nat) (buf : List (Nat × AggregatedFrame))
    (slice : TimeSlice) : List (Nat × AggregatedFrame) :=
  let f0 := match lookupFrame buf slice.timestamp with
    | some f => f
    | none => defaultFrame now
  let f1 := if f0.timestamp = 0 then
      { f0 with timestamp := slice.timestamp, frameNumber := slice.frameNumber,
                arrivalTime := now }
    else f0
  let f2 := { f1 with slices := f1.slices ++ [slice] }
  storeFrame buf slice.timestamp f2

/-- `FrameBuilder::addTimeSlice` as seen by one shard: build the `TimeSlice`
with the five-argument constructor and insert it.  (Routing by
`timestamp % builderThreadCount` selects which shard's buffer this is.) -/
def submitSlice (now : Nat) (buf : List (Nat × AggregatedFrame))
    (ts frame id : Nat) (data : List Nat) : List (Nat × AggregatedFrame) :=
  addTimeSlice now buf (mkTimeSlice ts frame id data)

/-- A sequence of `FrameBuilder::addTimeSlice` calls against one shard buffer;
each event is `(now, timestamp, frameNumber, dataId, payload)`. -/
def runInserts (events : List (Nat × Nat × Nat × Nat × List Nat)) :
    List (Nat × AggregatedFrame) :=
  events.foldl (fun buf e => submitSlice e.1 buf e.2.1 e.2.2.1 e.2.2.2.1 e.2.2.2.2) []

/-- Well-formedness of the slices the pipeline produces: `streamStatus` is
zero (never assigned after construction) and `dataId` fits `uint16_t`. -/
def SliceOK (s : TimeSlice) : Prop := s.streamStatus = 0 ∧ s.dataId < 2 ^ 16

/-! ### The EVIO-6 encoder (`BuilderThread::buildEVIO6Frame`) -/

/-- The CODA magic number checked at word 7 of each slice payload. -/
def MAGIC : Nat := 0xc0da0100

/-- The byte-reversed CODA magic (slice arrived in the opposite byte order). -/
def MAGIC_REV : Nat := 0x0001dac0

/-- `words[7]` of a payload byte buffer: the native (little-endian host)
`uint32_t` at byte offset 28. -/
def readWord7 (p : List Nat) : Nat :=
  p.getD 28 0 + p.getD 29 0 * 2 ^ 8 + p.getD 30 0 * 2 ^ 16 + p.getD 31 0 * 2 ^ 24

/-- Slice-level validation in the encoder loop: at least 32 payload bytes and
word 7 equal to the CODA magic in either byte order. -/
def sliceValid (s : TimeSlice) : Bool :=
  decide (32 ≤ s.payload.length) &&
    (readWord7 s.payload == MAGIC || readWord7 s.payload == MAGIC_REV)

/-- `BuilderThread::checkTimestampConsistency`: true (error) iff the spread
between the largest and smallest slice timestamp exceeds `timestampSlop`.
Runs over all slices of the frame. -/
def checkTimestampConsistency (slop : Nat) (f : AggregatedFrame) : Bool :=
  match f.slices with
  | [] => false
  | s0 :: _ =>
    let tsMin := f.slices.foldl (fun m s => min m s.timestamp) s0.timestamp
    let tsMax := f.slices.foldl (fun m s => max m s.timestamp) s0.timestamp
    decide (slop < tsMax - tsMin)

/-- `BuilderThread::calculateAverageTimestamp`: the `uint64_t` sum of all
slice timestamps (wrapping modulo `2^64`) divided by the slice count. -/
def calculateAverageTimestamp (f : AggregatedFrame) : Nat :=
  if f.slices.isEmpty then 0
  else (f.slices.foldl (fun acc s => (acc + s.timestamp) % 2 ^ 64) 0) / f.slices.length

/-- Zero-pad a byte buffer until its length is a multiple of 4 (the
`while (output.size() % 4 != 0) output.push_back(0)` loop). -/
def padTo4 (l : List Nat) : List Nat :=
  l ++ List.replicate ((4 - l.length % 4) % 4) 0

/-- `BuilderThread::buildEVIO6Frame`.  Returns `none` for the early
`return false` when no slice survives validation (the output vector is then
untouched), and otherwise `some (ok, words, payloadBytes)` where `ok` is the
C return value `!hasError`, `words` is the metadata `uint32_t` vector
(logical values, before the big-endian byte swap) and `payloadBytes` the
appended ROC-bank bytes with padding. -/
def buildEVIO6Frame (slop : Nat) (f : AggregatedFrame) :
    Option (Bool × List Nat × List Nat) :=
  let sliceCount := f.slices.length
  let tsErr := checkTimestampConsistency slop f
  let tsAvg := calculateAverageTimestamp f
  let streamStatus := ((if tsErr then 1 else 0) <<< 7) ||| (sliceCount &&& 0x7F)
  let rocBanks := f.slices.filterMap fun s =>
    if sliceValid s then some (s.payload.drop 32) else none
  let hasError := tsErr || f.slices.any fun s => ! sliceValid s
  if rocBanks.isEmpty then
    none
  else
    let bitInfo : Nat := 6 ||| (1 <<< 9) ||| (1 <<< 14) ||| (1 <<< 31)
    let header : List Nat := [0, 0, 14, 1, 0, bitInfo, 0, MAGIC, 0, 0, 0, 0, 0, 0]
    let aggregatedBankLengthIndex := header.length
    let aggBankHeader := (0xFF60 <<< 16) ||| (0x10 <<< 8) ||| streamStatus
    let ew1 := header ++ [0, aggBankHeader]
    let streamInfoLengthIndex := ew1.length
    let streamInfoHeader := (0xFF31 <<< 16) ||| (0x20 <<< 8) ||| streamStatus
    let tssHeader := (0x32 <<< 24) ||| (0x01 <<< 16) ||| 3
    let aisHeader := ((0x42 <<< 24) ||| (0x01 <<< 16) ||| sliceCount) % 2 ^ 32
    let aisEntries := f.slices.map fun s =>
      ((s.dataId <<< 16) ||| s.streamStatus) % 2 ^ 32
    let ew2 := ew1 ++ [0, streamInfoHeader, tssHeader, f.frameNumber % 2 ^ 32,
                       tsAvg % 2 ^ 32, (tsAvg >>> 32) % 2 ^ 32, aisHeader] ++ aisEntries
    let streamInfoLength := ew2.length - streamInfoLengthIndex - 1
    let ew3 := ew2.set streamInfoLengthIndex (streamInfoLength % 2 ^ 32)
    let totalPayloadBytes :=
      rocBanks.foldl (fun acc b => acc + b.length + (4 - b.length % 4) % 4) 0
    let totalPayloadWords := totalPayloadBytes / 4
    let aggregatedBankLength :=
      (ew3.length - aggregatedBankLengthIndex - 1) + totalPayloadWords
    let ew4 := ew3.set aggregatedBankLengthIndex (aggregatedBankLength % 2 ^ 32)
    let recordLength := 14 + aggregatedBankLength + 1
    let ew5 := ew4.set 0 (recordLength % 2 ^ 32)
    let uncompressedDataLength := recordLength - 14
    let ew6 := ew5.set 8 (uncompressedDataLength % 2 ^ 32)
    let payload := rocBanks.foldl (fun out b => padTo4 (out ++ b)) []
    some (!hasError, ew6, payload)

/-- The encoder's boolean return value (`!hasError`; `false` also for the
no-valid-slices early return). -/
def builtOk (slop : Nat) (f : AggregatedFrame) : Bool :=
  match buildEVIO6Frame slop f with
  | some (ok, _, _) => ok
  | none => false

/-- The metadata word vector of the built record (empty if the build bailed
out before touching the output). -/
def builtWords (slop : Nat) (f : AggregatedFrame) : List Nat :=
  match buildEVIO6Frame slop f with
  | some (_, ws, _) => ws
  | none => []

/-- The appended (padded) ROC-bank byte region of the built record. -/
def builtPayload (slop : Nat) (f : AggregatedFrame) : List Nat :=
  match buildEVIO6Frame slop f with
  | some (_, _, pb) => pb
  | none => []

/-- The emission decision in `BuilderThread::threadFunc`: the built frame is
sent to the enabled sinks iff `buildEVIO6Frame` returned `true`. -/
def workerEmits (slop : Nat) (f : AggregatedFrame) : Bool :=
  match buildEVIO6Frame slop f with
  | some (true, _, _) => true
  | _ => false

/-- Big-endian byte serialization of one 32-bit word (the byte-swap loop in
step 7 of the encoder, as bytes appear in the output buffer). -/
def beBytes (w : Nat) : List Nat :=
  [w / 2 ^ 24 % 2 ^ 8, w / 2 ^ 16 % 2 ^ 8, w / 2 ^ 8 % 2 ^ 8, w % 2 ^ 8]

/-- The complete emitted record buffer `B`: big-endian metadata words
followed by the verbatim padded ROC banks. -/
def recordBytes (slop : Nat) (f : AggregatedFrame) : List Nat :=
  ((builtWords slop f).map beBytes).flatten ++ builtPayload slop f

/-- `read_be_u32(B, word := i)`: big-endian 32-bit read at word offset `i`. -/
def readBE (b : List Nat) (i : Nat) : Nat :=
  b.getD (4 * i) 0 * 2 ^ 24 + b.getD (4 * i + 1) 0 * 2 ^ 16 +
    b.getD (4 * i + 2) 0 * 2 ^ 8 + b.getD (4 * i + 3) 0

/-! ### Named values of the encoder's computations

Each definition below names one quantity the encoder computes, read off the
source; the normalization theorem `buildEVIO6Frame_eq` proves that
`buildEVIO6Frame` produces exactly these. -/

/-- The stripped ROC banks collected by the validation loop: payload minus
its first 32 bytes, for every slice that passes `sliceValid`, in order. -/
def keptBanks (f : AggregatedFrame) : List (List Nat) :=
  f.slices.filterMap fun s => if sliceValid s then some (s.payload.drop 32) else none

/-- Encoder step 5: total padded ROC-bank payload size in words. -/
def totalPayloadWords (f : AggregatedFrame) : Nat :=
  ((keptBanks f).map (fun b => b.length + (4 - b.length % 4) % 4)).sum / 4

/-- The back-patched `aggregatedBankLength`: the 8 metadata words after its
field plus one AIS entry per slice plus the padded payload words. -/
def aggBankLen (f : AggregatedFrame) : Nat :=
  8 + f.slices.length + totalPayloadWords f

/-- The back-patched `recordLength = 14 + aggregatedBankLength + 1`. -/
def recLen (f : AggregatedFrame) : Nat := 14 + aggBankLen f + 1

/-- The final value of the encoder's `hasError` flag: timestamp-slop error or
at least one dropped slice. -/
def hasAnyError (slop : Nat) (f : AggregatedFrame) : Bool :=
  checkTimestampConsistency slop f || f.slices.any fun s => ! sliceValid s

/-- The stream-status byte as the code computes it (before the validation
loop): bit 7 is the timestamp-slop flag only, bits 0–6 the total slice
count. -/
def streamStatusByte (slop : Nat) (f : AggregatedFrame) : Nat :=
  ((if checkTimestampConsistency slop f then 1 else 0) <<< 7) |||
    (f.slices.length &&& 0x7F)

/-- Record-header word 5: version 6, last-block flag, record-type flag,
big-endian flag. -/
def bitInfoVal : Nat := 6 ||| (1 <<< 9) ||| (1 <<< 14) ||| (1 <<< 31)

/-- The aggregated-bank header word `0xFF60 | bank | SS`. -/
def aggHdrVal (slop : Nat) (f : AggregatedFrame) : Nat :=
  (0xFF60 <<< 16) ||| (0x10 <<< 8) ||| streamStatusByte slop f

/-- The stream-info-bank header word `0xFF31 | segment | SS`. -/
def siHdrVal (slop : Nat) (f : AggregatedFrame) : Nat :=
  (0xFF31 <<< 16) ||| (0x20 <<< 8) ||| streamStatusByte slop f

/-- The time-slice-segment header word. -/
def tssHdrVal : Nat := (0x32 <<< 24) ||| (0x01 <<< 16) ||| 3

/-- The aggregation-info-segment header word, carrying the total slice count
in its low 16 bits. -/
def aisHdrVal (f : AggregatedFrame) : Nat :=
  ((0x42 <<< 24) ||| (0x01 <<< 16) ||| f.slices.length) % 2 ^ 32

/-- The AIS entry words: one `(dataId << 16) | streamStatus` per slice of the
frame (dropped slices included), in insertion order. -/
def aisEntriesOf (f : AggregatedFrame) : List Nat :=
  f.slices.map fun s => ((s.dataId <<< 16) ||| s.streamStatus) % 2 ^ 32

/-! ### Claim-side vocabulary

These definitions transcribe the wording of the spec/claims (retained
slices, their count and mean, the claimed stream-status formula) so that the
claims can be stated verbatim and compared against what the code emits. -/

/-- The claims' "retained slices": those surviving slice-level validation. -/
def claimKeptSlices (f : AggregatedFrame) : List TimeSlice :=
  f.slices.filter fun s => sliceValid s

/-- The claims' `k`: the number of retained slices. -/
def claimKeptCount (f : AggregatedFrame) : Nat := (claimKeptSlices f).length

/-- The claims' embedded timestamp: the floor mean over retained slices. -/
def claimKeptMean (f : AggregatedFrame) : Nat :=
  ((claimKeptSlices f).map (fun s => s.timestamp)).sum / claimKeptCount f

/-- The claims' stream-status byte: error bit set iff slice validation or the
slop check flagged, low bits the retained-slice count. -/
def claimStreamStatus (slop : Nat) (f : AggregatedFrame) : Nat :=
  ((if hasAnyError slop f then 1 else 0) <<< 7) ||| (claimKeptCount f &&& 0x7F)

/-! ### Constructor validation (`FrameBuilder::FrameBuilder`) and the CLI
thread-count check (`e2sar_receiver.cpp`) -/

/-- The constructor arguments of `FrameBuilder`. -/
structure FrameBuilderCfg where
  etFile : String
  etHost : String
  etPort : Int
  fileDir : String
  filePfx : String
  numBuilderThreads : Int
  eventSize : Int
  tsSlop : Int
  timeoutMs : Int
  expectedStreams : Int
  deriving DecidableEq, Repr

/-- `FrameBuilder::FrameBuilder`: `enableET = !etFile.empty()`,
`enableFileOutput = !fileDir.empty()`; throws `std::invalid_argument` iff
neither output is enabled.  No other argument is validated. -/
def frameBuilderConstruct (cfg : FrameBuilderCfg) : Except String FrameBuilderCfg :=
  let enableET := ! cfg.etFile.isEmpty
  let enableFileOutput := ! cfg.fileDir.isEmpty
  if ! enableET && ! enableFileOutput then .error "No output enabled"
  else .ok cfg

/-- The CLI front-end check in `e2sar_receiver.cpp` (`main`): rejects the
`--fb-threads` value iff it lies outside `[1, 32]`; this runs before the
`FrameBuilder` is constructed. -/
def cliRejectsThreadCount (fbThreads : Int) : Bool :=
  fbThreads < 1 || fbThreads > 32

/-! ### Shutdown timing (`signalStop`, `waitForStop`, `FrameBuilder::stop`)

Sleeps are modelled as exact durations in milliseconds (the most favourable
schedule; real sleeps only take longer). -/

/-- `BuilderThread::signalStop`: five notify/sleep(50 ms) rounds. -/
def signalStopDuration : Nat := 5 * 50

/-- The `waitForStop` wait loop: sleep 100 ms, then return once the elapsed
time exceeds 1000 ms.  The loop body never observes the worker thread, so
nothing else can end it.  `fuel` bounds the recursion; the loop exits after
11 iterations, far below the fuel provided at the call site. -/
def waitForStopLoop (fuel elapsed : Nat) : Nat :=
  match fuel with
  | 0 => elapsed
  | fuel + 1 =>
    let e := elapsed + 100
    if 1000 < e then e else waitForStopLoop fuel e

/-- Elapsed time of one `BuilderThread::waitForStop` call on a joinable
thread, under exact sleeps. -/
def waitForStopDuration : Nat := waitForStopLoop 100 0

/-- `BuilderThread::waitForStop`: returns immediately if the thread object is
not joinable; otherwise runs the wait loop to its timeout and detaches the
thread (it never joins).  Result: (elapsed milliseconds, detached?). -/
def waitForStop (joinable : Bool) : Nat × Bool :=
  if joinable then (waitForStopDuration, true) else (0, false)

/-- `FrameBuilder::stop` call time for `n` builder threads (statistics
collection and ET teardown not counted): one `signalStop` pass over all
threads, then one `waitForStop` pass. -/
def stopDuration (n : Nat) : Nat :=
  n * signalStopDuration + n * (waitForStop true).1

/-! ### Concrete inputs used by counterexamples and witnesses -/

/-- A 32-byte payload whose word 7 (little-endian host read) is the CODA
magic `0xc0da0100`. -/
def validPayloadBytes : List Nat :=
  List.replicate 28 0 ++ [0x00, 0x01, 0xDA, 0xC0]

/-- A frame holding one valid slice and one slice whose payload is too small
(dropped by slice-level validation); both share timestamp 5. -/
def exFrameDrop : AggregatedFrame :=
  { timestamp := 5, frameNumber := 7,
    slices := [mkTimeSlice 5 7 0x2A validPayloadBytes, mkTimeSlice 5 7 0x2B []],
    arrivalTime := 0 }

/-- A frame with two valid slices whose timestamps 100 and 300 spread beyond
any small slop. -/
def exFrameSlop : AggregatedFrame :=
  { timestamp := 100, frameNumber := 9,
    slices := [mkTimeSlice 100 9 1 validPayloadBytes,
               mkTimeSlice 300 9 2 validPayloadBytes],
    arrivalTime := 0 }

/-- A frame with a valid slice at timestamp 10 and an invalid (too small)
slice at timestamp 30. -/
def exFrameMean : AggregatedFrame :=
  { timestamp := 10, frameNumber := 3,
    slices := [mkTimeSlice 10 3 1 validPayloadBytes, mkTimeSlice 30 3 2 []],
    arrivalTime := 0 }

/-- A fully valid single-slice frame (the spec's single-stream happy path):
32-byte prefix plus 16 payload bytes `0xAA`. -/
def exFrameGood : AggregatedFrame :=
  { timestamp := 16, frameNumber := 7,
    slices := [mkTimeSlice 16 7 0x2A (validPayloadBytes ++ List.replicate 16 0xAA)],
    arrivalTime := 0 }

/-- A constructor argument set with ET output enabled and a builder-thread
count of 0 (outside `[1, 32]`). -/
def exCfgThreadsOutOfRange : FrameBuilderCfg :=
  { etFile := "/tmp/et_sys", etHost := "", etPort := 0, fileDir := "",
    filePfx := "frames", numBuilderThreads := 0, eventSize := 1048576,
    tsSlop := 100, timeoutMs := 1000, expectedStreams := 1 }

/-- The single-slice insert sequence feeding `exFrameGood` through
`FrameBuilder::addTimeSlice`. -/
def exEvents : List (Nat × Nat × Nat × Nat × List Nat) :=
  [(0, 16, 7, 0x2A, validPayloadBytes ++ List.replicate 16 0xAA)]


/-! ### Normalization of the encoder output -/

/-- The padded-length accumulation in encoder step 5, as a mapped sum. -/
theorem foldl_pad_sum (banks : List (List Nat)) (init : Nat) :
    banks.foldl (fun acc b => acc + b.length + (4 - b.length % 4) % 4) init =
      init + (banks.map (fun b => b.length + (4 - b.length % 4) % 4)).sum := by
  induction banks generalizing init with
  | nil => simp
  | cons b rest ih => simp [ih]; omega

/-- A padded bank has length divisible by 4. -/
theorem padTo4_length_mod (l : List Nat) : (padTo4 l).length % 4 = 0 := by
  simp [padTo4]
  omega

/-- The append-then-pad loop of encoder step 8 pads each bank in place, as
long as the buffer is word-aligned before every bank. -/
theorem padTo4_foldl (banks : List (List Nat)) :
    ∀ init : List Nat, init.length % 4 = 0 →
      banks.foldl (fun out b => padTo4 (out ++ b)) init =
        init ++ (banks.map padTo4).flatten := by
  induction banks with
  | nil => simp
  | cons b rest ih =>
    intro init hinit
    have hstep : padTo4 (init ++ b) = init ++ padTo4 b := by
      simp [padTo4, List.append_assoc]
      congr 1
      omega
    have hlen : (init ++ padTo4 b).length % 4 = 0 := by
      have := padTo4_length_mod b
      simp [List.length_append]
      omega
    simp only [List.foldl_cons, hstep, ih (init ++ padTo4 b) hlen,
      List.map_cons, List.flatten_cons, List.append_assoc]

/-- Normal form of a successful `buildEVIO6Frame` run: the returned flag is
`!hasError`, the metadata vector is the 23 fixed words (with the four
back-patched length fields already in place) followed by one AIS entry per
slice, and the payload is the concatenation of the padded kept banks. -/
theorem buildEVIO6Frame_eq (slop : Nat) (f : AggregatedFrame) (h : keptBanks f ≠ []) :
    buildEVIO6Frame slop f =
      some (! hasAnyError slop f,
            recLen f % 2 ^ 32 :: 0 :: 14 :: 1 :: 0 :: bitInfoVal :: 0 :: MAGIC ::
              (recLen f - 14) % 2 ^ 32 :: 0 :: 0 :: 0 :: 0 :: 0 ::
              aggBankLen f % 2 ^ 32 :: aggHdrVal slop f ::
              (6 + f.slices.length) % 2 ^ 32 :: siHdrVal slop f ::
              tssHdrVal :: f.frameNumber % 2 ^ 32 ::
              calculateAverageTimestamp f % 2 ^ 32 ::
              (calculateAverageTimestamp f >>> 32) % 2 ^ 32 ::
              aisHdrVal f :: aisEntriesOf f,
            ((keptBanks f).map padTo4).flatten) := by
  have hne : (f.slices.filterMap fun s =>
      if sliceValid s then some (s.payload.drop 32) else none).isEmpty = false := by
    have hx : keptBanks f ≠ [] := h
    simpa [keptBanks, List.isEmpty_iff] using hx
  simp only [buildEVIO6Frame, hne, Bool.false_eq_true, if_false]
  rw [padTo4_foldl _ [] (by simp), foldl_pad_sum]
  simp only [hasAnyError, recLen, aggBankLen, totalPayloadWords, keptBanks,
    bitInfoVal, aggHdrVal, siHdrVal, streamStatusByte, tssHdrVal, aisHdrVal,
    aisEntriesOf, List.cons_append, List.nil_append, List.append_assoc,
    List.length_cons, List.length_nil, List.length_append, List.length_map,
    List.length_set]
  norm_num
  omega

/-- `builtWords` of a successful build, in normal form. -/
theorem builtWords_eq (slop : Nat) (f : AggregatedFrame) (h : keptBanks f ≠ []) :
    builtWords slop f =
      recLen f % 2 ^ 32 :: 0 :: 14 :: 1 :: 0 :: bitInfoVal :: 0 :: MAGIC ::
        (recLen f - 14) % 2 ^ 32 :: 0 :: 0 :: 0 :: 0 :: 0 ::
        aggBankLen f % 2 ^ 32 :: aggHdrVal slop f ::
        (6 + f.slices.length) % 2 ^ 32 :: siHdrVal slop f ::
        tssHdrVal :: f.frameNumber % 2 ^ 32 ::
        calculateAverageTimestamp f % 2 ^ 32 ::
        (calculateAverageTimestamp f >>> 32) % 2 ^ 32 ::
        aisHdrVal f :: aisEntriesOf f := by
  simp [builtWords, buildEVIO6Frame_eq slop f h]

/-- `builtPayload` of a successful build: the padded kept banks, concatenated. -/
theorem builtPayload_eq (slop : Nat) (f : AggregatedFrame) (h : keptBanks f ≠ []) :
    builtPayload slop f = ((keptBanks f).map padTo4).flatten := by
  simp [builtPayload, buildEVIO6Frame_eq slop f h]

/-- `builtOk` of a successful build is the negated error flag. -/
theorem builtOk_eq (slop : Nat) (f : AggregatedFrame) (h : keptBanks f ≠ []) :
    builtOk slop f = ! hasAnyError slop f := by
  simp [builtOk, buildEVIO6Frame_eq slop f h]

/-! ### Bit-field extraction and arithmetic helpers -/

/-- `k & 0x7F` is `k mod 128`. -/
theorem and_127_eq_mod (k : Nat) : k &&& 127 = k % 128 := by
  have h7 := Nat.and_pow_two_sub_one_eq_mod k 7
  norm_num at h7
  exact h7

/-- The stream-status byte in arithmetic form: 128 times the slop flag plus
the total slice count mod 128. -/
theorem streamStatusByte_eq (slop : Nat) (f : AggregatedFrame) :
    streamStatusByte slop f =
      (if checkTimestampConsistency slop f then 128 else 0) + f.slices.length % 128 := by
  unfold streamStatusByte
  have hlt : f.slices.length % 128 < 2 ^ 7 := by norm_num; omega
  cases hc : checkTimestampConsistency slop f with
  | false => simp [and_127_eq_mod]
  | true =>
    simp only [if_true, and_127_eq_mod]
    calc ((1 : Nat) <<< 7) ||| f.slices.length % 128
        = 2 ^ 7 * 1 ||| f.slices.length % 128 := by norm_num [Nat.shiftLeft_eq]
      _ = 2 ^ 7 * 1 + f.slices.length % 128 := (Nat.mul_add_lt_is_or hlt 1).symm
      _ = 128 + f.slices.length % 128 := by norm_num

/-- The stream-status byte fits in one byte. -/
theorem streamStatusByte_lt (slop : Nat) (f : AggregatedFrame) :
    streamStatusByte slop f < 256 := by
  rw [streamStatusByte_eq]
  have h : f.slices.length % 128 < 128 := by omega
  split <;> omega

/-- The aggregated-bank header carries the stream-status byte in its low
byte. -/
theorem aggHdrVal_eq (slop : Nat) (f : AggregatedFrame) :
    aggHdrVal slop f = 0xFF601000 + streamStatusByte slop f := by
  unfold aggHdrVal
  have h1 : ((0xFF60 : Nat) <<< 16 ||| (0x10 : Nat) <<< 8) = 0xFF601000 := by decide
  rw [h1]
  have hlt : streamStatusByte slop f < 2 ^ 8 := by
    have := streamStatusByte_lt slop f; norm_num; omega
  calc (0xFF601000 : Nat) ||| streamStatusByte slop f
      = 2 ^ 8 * 0xFF6010 ||| streamStatusByte slop f := by norm_num
    _ = 2 ^ 8 * 0xFF6010 + streamStatusByte slop f := (Nat.mul_add_lt_is_or hlt _).symm
    _ = 0xFF601000 + streamStatusByte slop f := by norm_num

/-- The stream-info-bank header carries the stream-status byte in its low
byte. -/
theorem siHdrVal_eq (slop : Nat) (f : AggregatedFrame) :
    siHdrVal slop f = 0xFF312000 + streamStatusByte slop f := by
  unfold siHdrVal
  have h1 : ((0xFF31 : Nat) <<< 16 ||| (0x20 : Nat) <<< 8) = 0xFF312000 := by decide
  rw [h1]
  have hlt : streamStatusByte slop f < 2 ^ 8 := by
    have := streamStatusByte_lt slop f; norm_num; omega
  calc (0xFF312000 : Nat) ||| streamStatusByte slop f
      = 2 ^ 8 * 0xFF3120 ||| streamStatusByte slop f := by norm_num
    _ = 2 ^ 8 * 0xFF3120 + streamStatusByte slop f := (Nat.mul_add_lt_is_or hlt _).symm
    _ = 0xFF312000 + streamStatusByte slop f := by norm_num

/-- The AIS header in arithmetic form, for any frame with fewer than `2^16`
slices: tag/type bits plus the total slice count. -/
theorem aisHdrVal_eq (f : AggregatedFrame) (hn : f.slices.length < 2 ^ 16) :
    aisHdrVal f = 0x42010000 + f.slices.length := by
  unfold aisHdrVal
  have h1 : ((0x42 : Nat) <<< 24 ||| (0x01 : Nat) <<< 16) = 0x42010000 := by decide
  rw [h1]
  have heq : (0x42010000 : Nat) ||| f.slices.length = 0x42010000 + f.slices.length := by
    calc (0x42010000 : Nat) ||| f.slices.length
        = 2 ^ 16 * 0x4201 ||| f.slices.length := by norm_num
      _ = 2 ^ 16 * 0x4201 + f.slices.length := (Nat.mul_add_lt_is_or hn _).symm
      _ = 0x42010000 + f.slices.length := by norm_num
  rw [heq, Nat.mod_eq_of_lt (by norm_num; omega)]

/-- The wrapping timestamp accumulation, as a modular sum. -/
theorem foldl_mod64 (l : List TimeSlice) :
    ∀ init : Nat, init < 2 ^ 64 →
      l.foldl (fun acc s => (acc + s.timestamp) % 2 ^ 64) init =
        (init + (l.map fun s => s.timestamp).sum) % 2 ^ 64 := by
  induction l with
  | nil => intro init h; simpa using (Nat.mod_eq_of_lt h).symm
  | cons x xs ih =>
    intro init h
    have hx : (init + x.timestamp) % 2 ^ 64 < 2 ^ 64 := Nat.mod_lt _ (by norm_num)
    simp only [List.foldl_cons, ih _ hx, List.map_cons, List.sum_cons,
      Nat.mod_add_mod]
    ring_nf

/-- `calculateAverageTimestamp` as the wrapped sum of all slice timestamps
divided by the total slice count. -/
theorem calculateAverageTimestamp_eq (f : AggregatedFrame) (h : f.slices ≠ []) :
    calculateAverageTimestamp f =
      ((f.slices.map fun s => s.timestamp).sum % 2 ^ 64) / f.slices.length := by
  unfold calculateAverageTimestamp
  rw [if_neg (by simpa [List.isEmpty_iff] using h)]
  rw [foldl_mod64 f.slices 0 (by norm_num)]
  norm_num

/-- The average timestamp fits in 64 bits. -/
theorem calculateAverageTimestamp_lt (f : AggregatedFrame) :
    calculateAverageTimestamp f < 2 ^ 64 := by
  unfold calculateAverageTimestamp
  split
  · norm_num
  · rw [foldl_mod64 f.slices 0 (by norm_num)]
    exact Nat.lt_of_le_of_lt (Nat.div_le_self _ _) (Nat.mod_lt _ (by norm_num))

/-- The built payload region holds exactly `4 * totalPayloadWords` bytes. -/
theorem builtPayload_length (slop : Nat) (f : AggregatedFrame) (h : keptBanks f ≠ []) :
    (builtPayload slop f).length = 4 * totalPayloadWords f := by
  rw [builtPayload_eq slop f h]
  unfold totalPayloadWords
  rw [List.length_flatten, List.map_map]
  have hmap : ((keptBanks f).map (List.length ∘ padTo4)) =
      (keptBanks f).map fun b => b.length + (4 - b.length % 4) % 4 := by
    refine List.map_congr_left fun b _ => ?_
    simp [padTo4]
  rw [hmap]
  have hdvd : (4 : Nat) ∣ ((keptBanks f).map fun b => b.length + (4 - b.length % 4) % 4).sum := by
    refine List.dvd_sum fun x hx => ?_
    obtain ⟨b, _, rfl⟩ := List.mem_map.mp hx
    omega
  omega

/-! ### Shard-buffer lemmas -/

/-- Lookup after store: the stored key now maps to the stored frame, every
other key is unchanged. -/
theorem lookupFrame_storeFrame (buf : List (Nat × AggregatedFrame)) (ts ts' : Nat)
    (v : AggregatedFrame) :
    lookupFrame (storeFrame buf ts v) ts' =
      if ts = ts' then some v else lookupFrame buf ts' := by
  induction buf with
  | nil => simp [storeFrame, lookupFrame]
  | cons kv rest ih =>
    obtain ⟨k, w⟩ := kv
    by_cases hk : k = ts
    · subst hk
      simp [storeFrame, lookupFrame]
      split <;> simp [lookupFrame, *]
    · simp only [storeFrame, if_neg hk, lookupFrame]
      by_cases hk' : k = ts'
      · subst hk'
        have hne : ¬ ts = k := fun hh => hk hh.symm
        simp [lookupFrame, hne]
      · simp [lookupFrame, hk', ih]

/-- One `addTimeSlice` call preserves slice well-formedness of every frame
in the buffer. -/
theorem addTimeSlice_sliceOK (now : Nat) (buf : List (Nat × AggregatedFrame))
    (slice : TimeSlice)
    (hbuf : ∀ ts f, lookupFrame buf ts = some f → ∀ s ∈ f.slices, SliceOK s)
    (hs : SliceOK slice) :
    ∀ ts f, lookupFrame (addTimeSlice now buf slice) ts = some f →
      ∀ s ∈ f.slices, SliceOK s := by
  intro ts f hf s hsmem
  unfold addTimeSlice at hf
  rw [lookupFrame_storeFrame] at hf
  by_cases hts : slice.timestamp = ts
  · rw [if_pos hts] at hf
    have hf2 := (Option.some.inj hf).symm
    subst hf2
    cases hlk : lookupFrame buf slice.timestamp with
    | none =>
      rw [hlk] at hsmem
      simp [defaultFrame] at hsmem
      subst hsmem
      exact hs
    | some fprev =>
      rw [hlk] at hsmem
      have hsl : (if fprev.timestamp = 0 then
          { fprev with timestamp := slice.timestamp,
                       frameNumber := slice.frameNumber, arrivalTime := now }
        else fprev).slices = fprev.slices := by split <;> rfl
      simp only [hsl] at hsmem
      rcases List.mem_append.mp hsmem with hmem | hmem
      · exact hbuf slice.timestamp fprev hlk s hmem
      · rw [List.mem_singleton] at hmem
        subst hmem
        exact hs
  · rw [if_neg hts] at hf
    exact hbuf ts f hf s hsmem

/-- Every frame sitting in a buffer produced by a sequence of
`FrameBuilder::addTimeSlice` calls holds only well-formed slices. -/
theorem runInserts_sliceOK (events : List (Nat × Nat × Nat × Nat × List Nat)) :
    ∀ ts f, lookupFrame (runInserts events) ts = some f →
      ∀ s ∈ f.slices, SliceOK s := by
  unfold runInserts
  suffices hgen : ∀ buf,
      (∀ ts f, lookupFrame buf ts = some f → ∀ s ∈ f.slices, SliceOK s) →
      ∀ ts f, lookupFrame
          (events.foldl (fun buf e =>
            submitSlice e.1 buf e.2.1 e.2.2.1 e.2.2.2.1 e.2.2.2.2) buf) ts = some f →
        ∀ s ∈ f.slices, SliceOK s by
    exact hgen [] (by intro ts f hf; simp [lookupFrame] at hf)
  induction events with
  | nil => intro buf hbuf; simpa using hbuf
  | cons e rest ih =>
    intro buf hbuf
    simp only [List.foldl_cons]
    refine ih _ ?_
    exact addTimeSlice_sliceOK e.1 buf _ hbuf
      ⟨rfl, Nat.mod_lt _ (by norm_num)⟩

/-- Each metadata word serializes to exactly four bytes. -/
theorem mapBeBytes_length (ws : List Nat) :
    ((ws.map beBytes).flatten).length = 4 * ws.length := by
  induction ws with
  | nil => simp
  | cons w rest ih =>
    simp [beBytes, ih]
    omega

/-! ### Claim C1 (corrected) -/

/-- C1, counterexample.  The claim states the emitted stream-status byte is
`(errFlag << 7) | (k & 0x7F)` with the error bit set whenever slice-level
validation (step 1) or the slop check (step 2) flagged.  On a frame holding
one valid and one undersized slice (slop 100, no slop error), step 1 flags,
so the claimed byte is `0x81`; the code emits `0x02` — error bit clear and
the count including the dropped slice. -/
theorem C1_claim_counterexample :
    hasAnyError 100 exFrameDrop = true ∧
    claimStreamStatus 100 exFrameDrop = 129 ∧
    (builtWords 100 exFrameDrop).getD 15 0 % 256 = 2 ∧
    ¬ (builtWords 100 exFrameDrop).getD 15 0 % 256 = claimStreamStatus 100 exFrameDrop := by
  decide

/-- C1, amended.  For every frame the encoder emits, the stream-status byte
(the low byte of both the aggregated-bank header, word 15, and the
stream-info header, word 17) equals `(slopFlag << 7) | (n & 0x7F)` where
`slopFlag` reflects only the timestamp-slop check and `n` is the total
number of slices in the frame, dropped slices included; slice-level
validation never influences this byte. -/
theorem C1_streamStatus_amended (slop : Nat) (f : AggregatedFrame)
    (h : keptBanks f ≠ []) :
    (builtWords slop f).getD 15 0 % 256 =
      (if checkTimestampConsistency slop f then 128 else 0) + f.slices.length % 128 ∧
    (builtWords slop f).getD 17 0 % 256 =
      (if checkTimestampConsistency slop f then 128 else 0) + f.slices.length % 128 := by
  rw [builtWords_eq slop f h]
  have hss := streamStatusByte_lt slop f
  have hsse := streamStatusByte_eq slop f
  constructor
  · simp only [List.getD_eq_getElem?_getD, List.getElem?_cons_succ,
      List.getElem?_cons_zero, Option.getD_some]
    rw [aggHdrVal_eq]
    omega
  · simp only [List.getD_eq_getElem?_getD, List.getElem?_cons_succ,
      List.getElem?_cons_zero, Option.getD_some]
    rw [siHdrVal_eq]
    omega

/-- C1, witness: the amended statement evaluated on the happy-path frame. -/
theorem C1_streamStatus_witness :
    (builtWords 100 exFrameGood).getD 15 0 % 256 =
      (if checkTimestampConsistency 100 exFrameGood then 128 else 0) +
        exFrameGood.slices.length % 128 :=
  (C1_streamStatus_amended 100 exFrameGood (by decide)).1

/-! ### Claim C2 (corrected) -/

/-- C2, counterexample.  The claim states that on a non-fatal error (here:
timestamp spread 200 > slop 10, both slices valid) the encoder returns a
built-with-errors result and the worker still emits the record.  The code
builds the full buffer with the error flag set in SS (`0x82`), but returns
`false`, and `threadFunc` then skips emission entirely. -/
theorem C2_claim_counterexample :
    hasAnyError 10 exFrameSlop = true ∧
    (buildEVIO6Frame 10 exFrameSlop).isSome = true ∧
    (builtWords 10 exFrameSlop).getD 15 0 % 256 = 0x82 ∧
    builtOk 10 exFrameSlop = false ∧
    workerEmits 10 exFrameSlop = false := by
  decide

/-- C2, amended.  When the encoder raises any error while at least one slice
survives, it still builds the complete buffer (23 metadata words plus one
AIS entry per slice) but returns `false`, and the worker does not emit the
record to any sink. -/
theorem C2_softError_amended (slop : Nat) (f : AggregatedFrame)
    (hkept : keptBanks f ≠ []) (herr : hasAnyError slop f = true) :
    builtOk slop f = false ∧ workerEmits slop f = false ∧
    (buildEVIO6Frame slop f).isSome = true ∧
    (builtWords slop f).length = 23 + f.slices.length := by
  have hb := buildEVIO6Frame_eq slop f hkept
  refine ⟨?_, ?_, ?_, ?_⟩
  · rw [builtOk_eq slop f hkept, herr]
    rfl
  · unfold workerEmits
    rw [hb, herr]
    rfl
  · rw [hb]
    rfl
  · rw [builtWords_eq slop f hkept]
    simp [aisEntriesOf]
    omega

/-- C2, witness: the amended statement evaluated on the slop-error frame. -/
theorem C2_softError_witness :
    builtOk 10 exFrameSlop = false ∧ workerEmits 10 exFrameSlop = false ∧
    (buildEVIO6Frame 10 exFrameSlop).isSome = true ∧
    (builtWords 10 exFrameSlop).length = 23 + exFrameSlop.slices.length :=
  C2_softError_amended 10 exFrameSlop (by decide) (by decide)

/-! ### Claim C3 (corrected) -/

/-- C3, counterexample.  The claim ties the AIS entry count, the AIS header
count field and the low 7 bits of SS to the number of retained slices `k`.
On a frame with one valid and one dropped slice (`k = 1`) the code emits two
AIS entries — including one for the dropped slice `0x2B` — and count fields
equal to 2. -/
theorem C3_claim_counterexample :
    claimKeptCount exFrameDrop = 1 ∧
    (builtWords 100 exFrameDrop).length - 23 = 2 ∧
    (builtWords 100 exFrameDrop).getD 22 0 % 2 ^ 16 = 2 ∧
    (builtWords 100 exFrameDrop).getD 24 0 = 0x2B <<< 16 ∧
    ¬ (builtWords 100 exFrameDrop).length - 23 = claimKeptCount exFrameDrop := by
  decide

/-- C3, amended.  For every emitted record, the low 7 bits of SS equal
`n mod 128`, the AIS header count field equals `n`, and the AIS holds
exactly `n` entries `(dataId << 16) | streamStatus`, one per slice of the
frame — retained or dropped — in insertion order, where `n` is the total
slice count (assumed to fit the 16-bit count field). -/
theorem C3_aisEntries_amended (slop : Nat) (f : AggregatedFrame)
    (hkept : keptBanks f ≠ []) (hn : f.slices.length < 2 ^ 16) :
    (builtWords slop f).getD 15 0 % 256 % 128 = f.slices.length % 128 ∧
    (builtWords slop f).getD 22 0 % 2 ^ 16 = f.slices.length ∧
    (builtWords slop f).drop 23 = aisEntriesOf f ∧
    (builtWords slop f).length = 23 + f.slices.length := by
  rw [builtWords_eq slop f hkept]
  have hss := streamStatusByte_lt slop f
  have hsse := streamStatusByte_eq slop f
  refine ⟨?_, ?_, ?_, ?_⟩
  · simp only [List.getD_eq_getElem?_getD, List.getElem?_cons_succ,
      List.getElem?_cons_zero, Option.getD_some]
    rw [aggHdrVal_eq]
    have hmod : f.slices.length % 128 < 128 := by omega
    split at hsse <;> omega
  · simp only [List.getD_eq_getElem?_getD, List.getElem?_cons_succ,
      List.getElem?_cons_zero, Option.getD_some]
    rw [aisHdrVal_eq f hn]
    have h16 : (2 : Nat) ^ 16 = 65536 := by norm_num
    rw [h16] at hn ⊢
    omega
  · simp
  · simp [aisEntriesOf]
    omega

/-- C3, witness: the amended statement on the mixed valid/dropped frame. -/
theorem C3_aisEntries_witness :
    (builtWords 100 exFrameDrop).getD 15 0 % 256 % 128 =
      exFrameDrop.slices.length % 128 ∧
    (builtWords 100 exFrameDrop).getD 22 0 % 2 ^ 16 = exFrameDrop.slices.length ∧
    (builtWords 100 exFrameDrop).drop 23 = aisEntriesOf exFrameDrop ∧
    (builtWords 100 exFrameDrop).length = 23 + exFrameDrop.slices.length :=
  C3_aisEntries_amended 100 exFrameDrop (by decide) (by decide)

/-! ### Claim C4 (corrected) -/

/-- C4, counterexample.  The claim states the embedded timestamp is the
integer mean over the kept slices.  On a frame with a valid slice at 10 and
a dropped slice at 30, the kept mean is 10, but the code embeds 20 — the
mean over all slices, computed before validation. -/
theorem C4_claim_counterexample :
    claimKeptMean exFrameMean = 10 ∧
    (builtWords 100 exFrameMean).getD 20 0 +
      2 ^ 32 * (builtWords 100 exFrameMean).getD 21 0 = 20 ∧
    ¬ ((builtWords 100 exFrameMean).getD 20 0 +
      2 ^ 32 * (builtWords 100 exFrameMean).getD 21 0 = claimKeptMean exFrameMean) := by
  decide

/-- C4, amended.  The 64-bit timestamp embedded in the time-slice segment
(words 20 and 21, low word first) equals the floor mean over all slices of
the frame — dropped slices included — with the sum wrapping modulo `2^64`. -/
theorem C4_meanTimestamp_amended (slop : Nat) (f : AggregatedFrame)
    (h : keptBanks f ≠ []) :
    (builtWords slop f).getD 20 0 + 2 ^ 32 * (builtWords slop f).getD 21 0 =
      ((f.slices.map fun s => s.timestamp).sum % 2 ^ 64) / f.slices.length := by
  have hsl : f.slices ≠ [] := by
    intro he
    exact h (by simp [keptBanks, he])
  have hlt := calculateAverageTimestamp_lt f
  rw [builtWords_eq slop f h]
  simp only [List.getD_eq_getElem?_getD, List.getElem?_cons_succ,
    List.getElem?_cons_zero, Option.getD_some]
  rw [Nat.shiftRight_eq_div_pow, ← calculateAverageTimestamp_eq f hsl]
  have h32 : (2 : Nat) ^ 32 = 4294967296 := by norm_num
  have h64 : (2 : Nat) ^ 64 = 18446744073709551616 := by norm_num
  rw [h32] at *
  rw [h64] at hlt
  omega

/-- C4, witness: the amended statement on the happy-path frame. -/
theorem C4_meanTimestamp_witness :
    (builtWords 100 exFrameGood).getD 20 0 +
      2 ^ 32 * (builtWords 100 exFrameGood).getD 21 0 =
      ((exFrameGood.slices.map fun s => s.timestamp).sum % 2 ^ 64) /
        exFrameGood.slices.length :=
  C4_meanTimestamp_amended 100 exFrameGood (by decide)

/-! ### Claim C5 (confirmed) -/

/-- C5.  For every emitted record: word 0 (`recordLength`) equals
`14 + aggregatedBankLength + 1` (word 14 holds `aggregatedBankLength`);
it equals `|B| / 4` for the full record buffer (so in particular whenever
all ROC banks are word-aligned); the big-endian read of word 0 recovers the
same value; word 8 (`uncompressedDataLength`) is `recordLength - 14`; and
the back-patched `streamInfoLength` (word 16) counts exactly the words
between its field and the end of the AIS. -/
theorem C5_length_consistency (slop : Nat) (f : AggregatedFrame)
    (hkept : keptBanks f ≠ []) (hrec : recLen f < 2 ^ 32) :
    (builtWords slop f).getD 0 0 = 14 + (builtWords slop f).getD 14 0 + 1 ∧
    (builtWords slop f).getD 0 0 = (recordBytes slop f).length / 4 ∧
    readBE (recordBytes slop f) 0 = 14 + aggBankLen f + 1 ∧
    (builtWords slop f).getD 8 0 = (builtWords slop f).getD 0 0 - 14 ∧
    (builtWords slop f).getD 16 0 = (builtWords slop f).length - 17 := by
  have hagg : aggBankLen f < 2 ^ 32 := by
    unfold recLen at hrec
    omega
  have hrecmod : recLen f % 2 ^ 32 = recLen f := Nat.mod_eq_of_lt hrec
  have haggmod : aggBankLen f % 2 ^ 32 = aggBankLen f := Nat.mod_eq_of_lt hagg
  have hwords := builtWords_eq slop f hkept
  have hlen : (builtWords slop f).length = 23 + f.slices.length := by
    rw [hwords]
    simp [aisEntriesOf]
    omega
  have hpb := builtPayload_length slop f hkept
  have hrb : (recordBytes slop f).length =
      4 * (23 + f.slices.length) + 4 * totalPayloadWords f := by
    unfold recordBytes
    rw [List.length_append, mapBeBytes_length, hlen, hpb]
  refine ⟨?_, ?_, ?_, ?_, ?_⟩
  · rw [hwords]
    simp only [List.getD_eq_getElem?_getD, List.getElem?_cons_succ,
      List.getElem?_cons_zero, Option.getD_some]
    rw [hrecmod, haggmod]
    unfold recLen
    rfl
  · rw [hwords]
    simp only [List.getD_eq_getElem?_getD, List.getElem?_cons_succ,
      List.getElem?_cons_zero, Option.getD_some]
    rw [hrecmod, hrb]
    unfold recLen aggBankLen
    omega
  · unfold recordBytes readBE
    rw [hwords]
    simp only [List.map_cons, List.flatten_cons, beBytes, List.cons_append]
    norm_num
    rw [hrecmod] at *
    unfold recLen at hrec ⊢
    omega
  · rw [hwords]
    simp only [List.getD_eq_getElem?_getD, List.getElem?_cons_succ,
      List.getElem?_cons_zero, Option.getD_some]
    rw [hrecmod]
    have hsub : recLen f - 14 < 2 ^ 32 := by omega
    rw [Nat.mod_eq_of_lt hsub]
  · rw [hwords]
    simp only [List.getD_eq_getElem?_getD, List.getElem?_cons_succ,
      List.getElem?_cons_zero, Option.getD_some]
    have h6k : 6 + f.slices.length < 2 ^ 32 := by
      unfold recLen aggBankLen at hrec
      omega
    rw [Nat.mod_eq_of_lt h6k]
    simp [aisEntriesOf]
    omega

/-- C5, witness: the length relations on the happy-path frame. -/
theorem C5_length_consistency_witness :
    (builtWords 100 exFrameGood).getD 0 0 =
      14 + (builtWords 100 exFrameGood).getD 14 0 + 1 ∧
    (builtWords 100 exFrameGood).getD 0 0 = (recordBytes 100 exFrameGood).length / 4 ∧
    readBE (recordBytes 100 exFrameGood) 0 = 14 + aggBankLen exFrameGood + 1 ∧
    (builtWords 100 exFrameGood).getD 8 0 = (builtWords 100 exFrameGood).getD 0 0 - 14 ∧
    (builtWords 100 exFrameGood).getD 16 0 = (builtWords 100 exFrameGood).length - 17 :=
  C5_length_consistency 100 exFrameGood (by decide) (by decide)

/-! ### Claim C6 (corrected) -/

/-- C6, counterexample.  The claim states record-header words 1, 3, 6, 9,
10, 11, 12, 13 are all zero; but word 3 (`eventIndexCount`) is written as 1
in every emitted record. -/
theorem C6_claim_counterexample :
    workerEmits 100 exFrameGood = true ∧
    (builtWords 100 exFrameGood).getD 3 0 = 1 ∧
    ¬ (builtWords 100 exFrameGood).getD 3 0 = 0 := by
  decide

/-- C6, amended.  For every emitted record, header words 1, 6, 9, 10, 11,
12, 13 are zero, and word 3 equals 1. -/
theorem C6_headerWords_amended (slop : Nat) (f : AggregatedFrame)
    (h : keptBanks f ≠ []) :
    (builtWords slop f).getD 1 0 = 0 ∧ (builtWords slop f).getD 3 0 = 1 ∧
    (builtWords slop f).getD 6 0 = 0 ∧ (builtWords slop f).getD 9 0 = 0 ∧
    (builtWords slop f).getD 10 0 = 0 ∧ (builtWords slop f).getD 11 0 = 0 ∧
    (builtWords slop f).getD 12 0 = 0 ∧ (builtWords slop f).getD 13 0 = 0 := by
  rw [builtWords_eq slop f h]
  simp

/-- C6, witness: the amended header words on the happy-path frame. -/
theorem C6_headerWords_witness :
    (builtWords 100 exFrameDrop).getD 1 0 = 0 ∧
    (builtWords 100 exFrameDrop).getD 3 0 = 1 ∧
    (builtWords 100 exFrameDrop).getD 6 0 = 0 ∧
    (builtWords 100 exFrameDrop).getD 9 0 = 0 ∧
    (builtWords 100 exFrameDrop).getD 10 0 = 0 ∧
    (builtWords 100 exFrameDrop).getD 11 0 = 0 ∧
    (builtWords 100 exFrameDrop).getD 12 0 = 0 ∧
    (builtWords 100 exFrameDrop).getD 13 0 = 0 :=
  C6_headerWords_amended 100 exFrameDrop (by decide)

/-! ### Claim C7 (code bug) -/

/-- C7, failing input.  Two slices with timestamp 0 are inserted at ticks 5
and 9 with frame numbers 1 and 2.  Because `addTimeSlice` detects a "new"
frame via the sentinel `frame.timestamp == 0`, the second insert re-runs the
initialization: the stored frame ends with `frameNumber = 2` and
`arrivalTime = 9`, resetting the timeout clock — contradicting the claim
(and the code's own `// New frame` comment).  The same two inserts at
timestamp 1 keep `frameNumber = 1` and `arrivalTime = 5` as claimed. -/
theorem C7_sentinel_reset_bug :
    ((lookupFrame (runInserts
        [(5, 0, 1, 10, validPayloadBytes), (9, 0, 2, 11, validPayloadBytes)]) 0).map
          fun f => (f.frameNumber, f.arrivalTime)) = some (2, 9) ∧
    ((lookupFrame (runInserts
        [(5, 1, 1, 10, validPayloadBytes), (9, 1, 2, 11, validPayloadBytes)]) 1).map
          fun f => (f.frameNumber, f.arrivalTime)) = some (1, 5) := by
  decide

/-! ### Claim C8 (corrected) -/

/-- C8, counterexample.  The claim states construction fails when the
builder-thread count lies outside `[1, 32]`; with ET output enabled and a
thread count of 0, the constructor succeeds. -/
theorem C8_claim_counterexample :
    frameBuilderConstruct exCfgThreadsOutOfRange = .ok exCfgThreadsOutOfRange ∧
    exCfgThreadsOutOfRange.numBuilderThreads = 0 := by
  exact ⟨rfl, rfl⟩

/-- C8, amended.  The constructor fails exactly when neither ET nor file
output is enabled; the builder-thread range `[1, 32]` is enforced only by
the CLI front-end in `e2sar_receiver.cpp`, before construction. -/
theorem C8_constructorCheck_amended :
    (∀ cfg : FrameBuilderCfg, frameBuilderConstruct cfg = .error "No output enabled" ↔
      cfg.etFile.isEmpty = true ∧ cfg.fileDir.isEmpty = true) ∧
    (∀ n : Int, cliRejectsThreadCount n = true ↔ n < 1 ∨ 32 < n) := by
  constructor
  · intro cfg
    unfold frameBuilderConstruct
    cases he : cfg.etFile.isEmpty <;> cases hd : cfg.fileDir.isEmpty <;> simp [he, hd]
  · intro n
    unfold cliRejectsThreadCount
    simp only [Bool.or_eq_true, decide_eq_true_eq]

/-! ### Claim C9 (corrected) -/

/-- C9, counterexample.  The claim bounds `stop()` by `N × 1 s`.  Even under
exact sleeps, one worker costs 250 ms of signalling plus 1100 ms of waiting:
1350 ms > 1000 ms already for `N = 1`. -/
theorem C9_claim_counterexample :
    stopDuration 1 = 1350 ∧ ¬ stopDuration 1 ≤ 1 * 1000 := by
  decide

/-- C9, amended.  Under exact sleeps `stop()` takes `N × 1.35 s`: 250 ms of
notify/sleep signalling plus 1100 ms of waiting per worker.  The wait loop
never observes worker exit, so every joinable worker is unconditionally
detached when the loop expires. -/
theorem C9_stopDuration_amended :
    (∀ n : Nat, stopDuration n = n * 1350) ∧ (waitForStop true).2 = true := by
  constructor
  · intro n
    have hw : waitForStopDuration = 1100 := by decide
    unfold stopDuration signalStopDuration waitForStop
    rw [if_pos rfl]
    simp [hw]
    ring
  · rfl

/-! ### Claim C10 (confirmed) -/

/-- C10.  For every frame held in a shard buffer fed through
`FrameBuilder::addTimeSlice`, every AIS entry of the emitted record equals
exactly `dataId << 16`: `TimeSlice.streamStatus` is zero from construction
and never assigned afterwards. -/
theorem C10_aisEntries_zeroStatus (slop : Nat)
    (events : List (Nat × Nat × Nat × Nat × List Nat))
    (ts : Nat) (f : AggregatedFrame)
    (hf : lookupFrame (runInserts events) ts = some f)
    (hkept : keptBanks f ≠ []) :
    (builtWords slop f).drop 23 = f.slices.map fun s => s.dataId <<< 16 := by
  have hok := runInserts_sliceOK events ts f hf
  rw [builtWords_eq slop f hkept]
  simp only [List.drop_succ_cons, List.drop_zero]
  unfold aisEntriesOf
  refine List.map_congr_left fun s hs => ?_
  obtain ⟨h0, hlt⟩ := hok s hs
  rw [h0, Nat.or_zero]
  refine Nat.mod_eq_of_lt ?_
  rw [Nat.shiftLeft_eq]
  have h16 : (2 : Nat) ^ 16 = 65536 := by norm_num
  have h32 : (2 : Nat) ^ 32 = 4294967296 := by norm_num
  rw [h16] at hlt
  rw [h16, h32]
  omega

/-- C10, witness: one pipeline insert producing the happy-path frame; its
single AIS entry is `0x2A << 16`. -/
theorem C10_aisEntries_witness :
    (builtWords 100 exFrameGood).drop 23 =
      exFrameGood.slices.map fun s => s.dataId <<< 16 :=
  C10_aisEntries_zeroStatus 100 exEvents 16 exFrameGood (by decide) (by decide)

end E2SAR
